import Mathlib

/-!
# Verification of the fieldline_lsl repository

Shallow embedding, in Lean 4, of the internal logic of the fieldline_lsl
repository (an adapter that relays FieldLine OPM sensor data into an LSL
stream): the timestamp translation, per-channel calibration scaling, the
streaming relay loop, and the sensor-initialization sequencer, as implemented
in `FieldLineLSL.py`, `fieldline_lsl_new.py` and `start_lsl_stream.py`.

Numeric device readings, clock values and calibration factors are modelled as
rationals (`ℚ`); Python dictionaries keyed by channel name are modelled as
association lists; the per-chassis sensor sets kept by the connector objects
are modelled as duplicate-free lists of `(chassis_id, sensor_id)` pairs.
-/

namespace FieldlineLSL

/-- `FieldLineDataType` enum from FieldLineLSL.py (lines 32-38): the three
known datatypes in sensor data. -/
inductive FieldLineDataType
  | ADC
  | OPEN_LOOP
  | CLOSED_LOOP
deriving DecidableEq, Repr

/-- The enum value (the trailing code XX in channel names such as 00:01:XX):
ADC = '0', OPEN_LOOP = '28', CLOSED_LOOP = '50'. -/
def FieldLineDataType.code : FieldLineDataType → String
  | .ADC => "0"
  | .OPEN_LOOP => "28"
  | .CLOSED_LOOP => "50"

/-- `Unit_T_Factor` enum from FieldLineLSL.py (lines 41-50): orders of
magnitude relative to the SI unit Tesla. -/
inductive Unit_T_Factor
  | T
  | mT
  | uT
  | nT
  | pT
  | fT
deriving DecidableEq, Repr

/-- The numeric `.value` of each `Unit_T_Factor` member. -/
def Unit_T_Factor.value : Unit_T_Factor → ℚ
  | .T => 1
  | .mT => 10 ^ 3
  | .uT => 10 ^ 6
  | .nT => 10 ^ 9
  | .pT => 10 ^ 12
  | .fT => 10 ^ 15

/-- The `.name` of each `Unit_T_Factor` member, used as the channel unit
string for magnetometer channels. -/
def Unit_T_Factor.unitName : Unit_T_Factor → String
  | .T => "T"
  | .mT => "mT"
  | .uT => "uT"
  | .nT => "nT"
  | .pT => "pT"
  | .fT => "fT"

/-- `FieldLineLSL.get_data_type` (FieldLineLSL.py lines 394-403):
`FieldLineDataType(channel.data_type)` constructs the enum member whose value
equals the given code and raises `ValueError` otherwise; the method catches
the `ValueError` and returns `None`, modelled as `none`. -/
def get_data_type (data_type : String) : Option FieldLineDataType :=
  if data_type = "0" then some FieldLineDataType.ADC
  else if data_type = "28" then some FieldLineDataType.OPEN_LOOP
  else if data_type = "50" then some FieldLineDataType.CLOSED_LOOP
  else none

/-- `FieldLineLSL.is_OPM_type` (FieldLineLSL.py lines 405-406):
`self.get_data_type(channel) in [FieldLineDataType.CLOSED_LOOP,
FieldLineDataType.OPEN_LOOP]`. -/
def is_OPM_type (data_type : String) : Bool :=
  match get_data_type data_type with
  | some FieldLineDataType.CLOSED_LOOP => true
  | some FieldLineDataType.OPEN_LOOP => true
  | _ => false

/-- A Python exception raised during `__init__`. -/
inductive PyError
  | typeError
deriving DecidableEq, Repr

/-- A value passed as the `unit_T` argument of `FieldLineLSL.__init__`: a
member of `Unit_T_Factor`, a member of some other `Enum` class, or a value
that is not an `Enum` instance at all (a float such as `1e15`, a string,
...), tagged with the Python literal it stands for. -/
inductive UnitTArg
  | member (u : Unit_T_Factor)
  | otherEnum (pyLiteral : String)
  | nonEnum (pyLiteral : String)
deriving DecidableEq, Repr

/-- `unit_T in Unit_T_Factor` under the `Enum` semantics of the Python
versions this code targets (3.8-3.11, per its f-string `{unit_T=}` syntax):
`EnumMeta.__contains__` raises `TypeError` when the argument is not an
`Enum` instance, and otherwise tests membership of the instance in the
class. -/
def unit_T_contains : UnitTArg → Except PyError Bool
  | UnitTArg.member _ => Except.ok true
  | UnitTArg.otherEnum _ => Except.ok false
  | UnitTArg.nonEnum _ => Except.error PyError.typeError

/-- The unit_T validation in `FieldLineLSL.__init__` (FieldLineLSL.py lines
85-90): `if unit_T not in Unit_T_Factor:` log a warning and fall back to
`Unit_T_Factor.T`, else keep the given member.  A `TypeError` raised by the
containment test itself propagates out of `__init__`. -/
def init_unit_T (unit_T : UnitTArg) : Except PyError Unit_T_Factor :=
  match unit_T_contains unit_T, unit_T with
  | Except.error e, _ => Except.error e
  | Except.ok false, _ => Except.ok Unit_T_Factor.T
  | Except.ok true, UnitTArg.member u => Except.ok u
  -- unreachable: the containment test returns true only for members
  | Except.ok true, _ => Except.ok Unit_T_Factor.T

/-- `ChannelInfo`, the per-channel record obtained from the FieldLine SDK
(`fieldline.pycore.sensor.ChannelInfo`): the fields read by this repository. -/
structure ChannelInfo where
  name : String
  chassis_id : ℕ
  sensor_id : ℕ
  data_type : String
  calibration : ℚ
  location : String
deriving DecidableEq, Repr

/-- The per-channel scale factor computed by
`FieldLineLSL._set_calibration_dict` (FieldLineLSL.py lines 296-304):
`calibration_value = channel.calibration`, multiplied by
`self.unit_T_factor` when the channel is of OPM (magnetometer) type. -/
def calibrationValue (unit_T_factor : ℚ) (channel : ChannelInfo) : ℚ :=
  if is_OPM_type channel.data_type then channel.calibration * unit_T_factor
  else channel.calibration

/-- `FieldLineLSL._set_calibration_dict` (FieldLineLSL.py lines 296-304):
the dictionary mapping each channel name to its scale factor. -/
def set_calibration_dict (unit_T_factor : ℚ) (channels : List ChannelInfo) :
    List (String × ℚ) :=
  channels.map (fun channel => (channel.name, calibrationValue unit_T_factor channel))

/-- Dictionary lookup (`d[key]`) on an association list: `some` value on the
first matching key, `none` when the key is absent (a Python `KeyError`). -/
def lookup (dict : List (String × ℚ)) (key : String) : Option ℚ :=
  match dict with
  | [] => none
  | kv :: rest => if kv.1 = key then some kv.2 else lookup rest key

/-- `FieldLineLSL.get_timestamp` (FieldLineLSL.py lines 436-443): transform a
chassis system timestamp into a `pylsl.local_clock()` timestamp, using the
anchor pair recorded at the first received data frame.  25000 because the
chassis clock is 25 MHz and the sampling frequency 1 kHz. -/
def get_timestamp (first_lsl_timestamp first_chassis_timestamp chassis_timestamp : ℚ) : ℚ :=
  first_lsl_timestamp + (chassis_timestamp - first_chassis_timestamp) / 25000

/-- One item of the streaming data queue (`self.data_queue` in
FieldLineLSL.py): a hardware timestamp tick together with the `data_frames`
mapping from channel name to the raw `['data']` reading of that channel. -/
structure DataItem where
  timestamp : ℚ
  data_frames : List (String × ℚ)
deriving DecidableEq, Repr

/-- The fields of the `FieldLineLSL` object read by the streaming thread
(`thread_stream_data`): the fixed channel-name layout, the calibration
dictionary, the channel count declared in the stream info, and the clock-sync
anchor pair recorded at the first received frame. -/
structure RelayConfig where
  channel_names : List String
  calibration_dict : List (String × ℚ)
  channel_count : ℕ
  first_lsl_timestamp : ℚ
  first_chassis_timestamp : ℚ
deriving DecidableEq, Repr

/-- The sample list comprehension of `thread_stream_data` (FieldLineLSL.py
lines 280-281): `[data_frames[channel_name]['data'] *
self._calibration_dict[channel_name] for channel_name in
self.channel_names]`.  A missing key in either dictionary raises `KeyError`,
modelled as `none`. -/
def build_sample (data_frames calibration_dict : List (String × ℚ)) :
    List String → Option (List ℚ)
  | [] => some []
  | channel_name :: names =>
    match lookup data_frames channel_name, lookup calibration_dict channel_name,
        build_sample data_frames calibration_dict names with
    | some raw, some cal, some rest => some (raw * cal :: rest)
    | _, _, _ => none

/-- `pylsl.StreamOutlet.push_sample` (external library, as documented and as
relied upon by FieldLineLSL.py lines 285-288): accepts the sample when its
length equals the outlet's declared channel count and raises `ValueError`
otherwise. -/
def push_sample (channel_count : ℕ) (sample : List ℚ) (timestamp : ℚ) :
    Except Unit (List ℚ × ℚ) :=
  if sample.length = channel_count then Except.ok (sample, timestamp)
  else Except.error ()

/-- Outcome of one iteration body of `thread_stream_data` on a dequeued item. -/
inductive RelayOutcome
  | pushed (sample : List ℚ) (timestamp : ℚ)
  | droppedValueError
  | crashedKeyError
deriving DecidableEq, Repr

/-- The per-item body of `thread_stream_data` (FieldLineLSL.py lines
278-288): build the scaled sample (outside any try block, so a `KeyError`
propagates and kills the thread), then inside `try` compute the timestamp
and push; only `ValueError` is caught, logging a warning and continuing. -/
def process_item (cfg : RelayConfig) (item : DataItem) : RelayOutcome :=
  match build_sample item.data_frames cfg.calibration_dict cfg.channel_names with
  | none => RelayOutcome.crashedKeyError
  | some sample =>
    match push_sample cfg.channel_count sample
        (get_timestamp cfg.first_lsl_timestamp cfg.first_chassis_timestamp
          item.timestamp) with
    | Except.ok (s, t) => RelayOutcome.pushed s t
    | Except.error _ => RelayOutcome.droppedValueError

/-- The `while self.running` loop of `thread_stream_data` over a queue of
items: returns the pushed (sample, timestamp) pairs and whether the thread
terminated by an uncaught exception.  A caught `ValueError` drops the single
item and continues; an uncaught `KeyError` ends the thread, leaving the rest
of the queue unprocessed. -/
def relay_run (cfg : RelayConfig) : List DataItem → List (List ℚ × ℚ) × Bool
  | [] => ([], false)
  | item :: rest =>
    match process_item cfg item with
    | RelayOutcome.pushed s t =>
      let r := relay_run cfg rest
      ((s, t) :: r.1, r.2)
    | RelayOutcome.droppedValueError => relay_run cfg rest
    | RelayOutcome.crashedKeyError => ([], true)

/-- The callback-visible state of the `FieldLineLSL` object: the clock-sync
anchor pair (both `None` until the first frame arrives) and the data queue. -/
structure CallbackState where
  first_lsl_timestamp : Option ℚ
  first_chassis_timestamp : Option ℚ
  data_queue : List DataItem
deriving DecidableEq, Repr

/-- The state of a freshly constructed `FieldLineLSL` (FieldLineLSL.py lines
94, 104-105): empty queue, no anchor recorded. -/
def initialCallbackState : CallbackState :=
  { first_lsl_timestamp := none, first_chassis_timestamp := none, data_queue := [] }

/-- `FieldLineLSL.callback_data_available` (FieldLineLSL.py lines 427-434):
if `self.first_lsl_timestamp is None`, record `pylsl.local_clock()` (the
`local_clock` argument here) and the frame's chassis timestamp; then enqueue
the frame. -/
def callback_data_available (local_clock : ℚ) (st : CallbackState)
    (data : DataItem) : CallbackState :=
  let st :=
    match st.first_lsl_timestamp with
    | none =>
      { st with
        first_lsl_timestamp := some local_clock
        first_chassis_timestamp := some data.timestamp }
    | some _ => st
  { st with data_queue := st.data_queue ++ [data] }

/-- A sequence of invocations of `callback_data_available`, each with the
local-clock value observed at its call. -/
def run_callbacks (st : CallbackState) : List (ℚ × DataItem) → CallbackState
  | [] => st
  | (clk, d) :: events => run_callbacks (callback_data_available clk st d) events

/-- The channel description assembled by `FieldLineLSL.get_channel_desc_dict`
(FieldLineLSL.py lines 358-392): the classification fields.  (The additional
OPM-only entries — serial numbers, field values, location, unit factor — are
values fetched from the external SDK and are not modelled.) -/
structure ChannelDesc where
  label : String
  chassis_id : ℕ
  sensor_id : ℕ
  calibration : ℚ
  type : String
  unit : String
  mode : String
deriving DecidableEq, Repr

/-- `FieldLineLSL.get_channel_desc_dict` (FieldLineLSL.py lines 358-392):
classify the channel by its data type; an unrecognised data-type code (where
`get_data_type` returns `None`) falls into the final `else` branch with
type `'misc'`, unit `'?'`, mode `'Unknown'`. -/
def get_channel_desc_dict (unit_T : Unit_T_Factor) (channel : ChannelInfo) :
    ChannelDesc :=
  let base : ChannelDesc :=
    { label := channel.name
      chassis_id := channel.chassis_id
      sensor_id := channel.sensor_id
      calibration := channel.calibration
      type := ""
      unit := ""
      mode := "" }
  if get_data_type channel.data_type = some FieldLineDataType.ADC then
    { base with type := "misc", unit := "V", mode := "ADC" }
  else if get_data_type channel.data_type = some FieldLineDataType.CLOSED_LOOP then
    { base with type := "mag", unit := unit_T.unitName, mode := "Closed Loop" }
  else if get_data_type channel.data_type = some FieldLineDataType.OPEN_LOOP then
    { base with type := "mag", unit := unit_T.unitName, mode := "Open Loop" }
  else
    { base with type := "misc", unit := "?", mode := "Unknown" }

/-- Boolean membership of a `(chassis_id, sensor_id)` pair in a pair list
(Python `in` on a set of tuples). -/
def pairMem (l : List (ℕ × ℕ)) (p : ℕ × ℕ) : Bool :=
  l.any (fun q => decide (q = p))

/-- Adding a pair to a set kept as a duplicate-free list (`set.update`). -/
def insertPair (l : List (ℕ × ℕ)) (p : ℕ × ℕ) : List (ℕ × ℕ) :=
  if pairMem l p then l else l ++ [p]

/-- `sensors_available[chassis_id].update(sensor_list)`
(`callback_sensors_available`, fieldline_lsl_new.py lines 87-90). -/
def insertPairs (l : List (ℕ × ℕ)) (c : ℕ) (ss : List ℕ) : List (ℕ × ℕ) :=
  ss.foldl (fun acc s => insertPair acc (c, s)) l

/-- The per-chassis set `d[chassis_id]` of a defaultdict of sensor-id sets,
for a mapping kept as a list of `(chassis_id, sensor_id)` pairs. -/
def onChassis (l : List (ℕ × ℕ)) (c : ℕ) : List ℕ :=
  (l.filter (fun p => decide (p.1 = c))).map Prod.snd

/-- Set equality of two sensor-id sets kept as lists (Python `set == set`). -/
def natSetEq (a b : List ℕ) : Bool :=
  a.all (fun x => b.any (fun y => decide (y = x))) &&
    b.all (fun x => a.any (fun y => decide (y = x)))

/-- The chassis ids appearing as keys of a per-chassis mapping
(`d.keys()` of the defaultdict). -/
def chassisKeys (l : List (ℕ × ℕ)) : List ℕ :=
  (l.map Prod.fst).dedup

/-- The batch-transition test of `init_sensors` (fieldline_lsl_new.py lines
288-289, 299-300, 309-310): `all(completed[chassis_id] ==
selected[chassis_id] for chassis_id in selected.keys())`. -/
def allSelectedChassisEq (completed selected : List (ℕ × ℕ)) : Bool :=
  (chassisKeys selected).all (fun c => natSetEq (onChassis completed c) (onChassis selected c))

/-- The configuration of a sequencer run: the `expected_sensors` allow-list
(`None` starts all sensors), the `excluded_sensors` list, and the
`disable_restart` flag. -/
structure Config where
  expected_sensors : Option (List (ℕ × ℕ))
  excluded_sensors : List (ℕ × ℕ)
  disable_restart : Bool
deriving DecidableEq, Repr

/-- The first conjunct of the sensor-acceptance test in both scripts:
`expected_sensors is None or (chassis_id, sensor_id) in expected_sensors`. -/
def expected_check (expected : Option (List (ℕ × ℕ))) (c s : ℕ) : Bool :=
  match expected with
  | none => true
  | some exp => pairMem exp (c, s)

/-- The second conjunct of the acceptance test as written in
fieldline_lsl_new.py lines 266-267: `(chassis_id, sensor_id not in
excluded_sensors)`.  Because of the misplaced parenthesis this expression is
a two-element tuple, and a nonempty tuple is always truthy in Python, so the
excluded list is never actually consulted: the test is constantly true. -/
def excluded_check_new (excluded : List (ℕ × ℕ)) (c s : ℕ) : Bool :=
  true

/-- The second conjunct of the acceptance test as written in
start_lsl_stream.py lines 143-144: `(chassis_id, sensor_id) not in
excluded_sensors` — the correctly parenthesised membership test. -/
def excluded_check_start (excluded : List (ℕ × ℕ)) (c s : ℕ) : Bool :=
  !pairMem excluded (c, s)

/-- The per-chassis sensor sets held by `FieldLineLSLConnector`
(fieldline_lsl_new.py lines 57-68), each modelled as a set of
`(chassis_id, sensor_id)` pairs. -/
structure ConnectorState where
  sensors_available : List (ℕ × ℕ)
  sensors_selected : List (ℕ × ℕ)
  sensors_restarted : List (ℕ × ℕ)
  sensors_coarse_zeroed : List (ℕ × ℕ)
  sensors_fine_zeroed : List (ℕ × ℕ)
deriving DecidableEq, Repr

/-- The state of an `init_sensors` run (fieldline_lsl_new.py lines 189-314):
the connector state together with the operations issued so far to the
hardware service (`restart_sensors`, `coarse_zero_sensors`,
`fine_zero_sensors`, `turn_off_sensors`) and the loop-exit flag. -/
structure SequencerWorld where
  conn : ConnectorState
  restartIssued : List (ℕ × ℕ)
  coarseIssued : List (ℕ × ℕ)
  fineIssued : List (ℕ × ℕ)
  turnedOff : List (ℕ × ℕ)
  finished : Bool
deriving DecidableEq, Repr

/-- The state at the start of `init_sensors`: all sets empty. -/
def initialSequencerWorld : SequencerWorld :=
  { conn :=
      { sensors_available := []
        sensors_selected := []
        sensors_restarted := []
        sensors_coarse_zeroed := []
        sensors_fine_zeroed := [] }
    restartIssued := []
    coarseIssued := []
    fineIssued := []
    turnedOff := []
    finished := false }

/-- The per-sensor body of the availability handler of `init_sensors`
(fieldline_lsl_new.py lines 259-282): an accepted sensor is selected and
either restarted (`fService.restart_sensors`) or, with `disable_restart`,
directly marked restarted (`fConnector.set_sensor_restarted`); a rejected
sensor is turned off (`fService.turn_off_sensors`). -/
def handle_available_new (cfg : Config) (w : SequencerWorld) (c s : ℕ) :
    SequencerWorld :=
  if expected_check cfg.expected_sensors c s &&
      excluded_check_new cfg.excluded_sensors c s then
    let w1 := { w with conn :=
      { w.conn with sensors_selected := insertPair w.conn.sensors_selected (c, s) } }
    if cfg.disable_restart then
      { w1 with conn :=
        { w1.conn with sensors_restarted := insertPair w1.conn.sensors_restarted (c, s) } }
    else
      { w1 with restartIssued := insertPair w1.restartIssued (c, s) }
  else
    { w with turnedOff := insertPair w.turnedOff (c, s) }

/-- First block of the `init_sensors` polling loop (fieldline_lsl_new.py
lines 254-282): if sensors are available, pop them and handle each. -/
def stage_available (cfg : Config) (w : SequencerWorld) : SequencerWorld :=
  if w.conn.sensors_available.isEmpty then w
  else
    let avail := w.conn.sensors_available
    let w1 := { w with conn := { w.conn with sensors_available := [] } }
    avail.foldl (fun acc p => handle_available_new cfg acc p.1 p.2) w1

/-- Guard of the coarse-zeroing block (fieldline_lsl_new.py lines 284-289):
`has_sensors_restarted()` and the restarted/selected per-chassis set
equality over all selected chassis. -/
def coarse_guard (w : SequencerWorld) : Bool :=
  !w.conn.sensors_restarted.isEmpty &&
    allSelectedChassisEq w.conn.sensors_restarted w.conn.sensors_selected

/-- Second block of the polling loop (fieldline_lsl_new.py lines 284-293):
when the guard holds, pop the restarted set and issue
`coarse_zero_sensors` for exactly that batch. -/
def stage_coarse (w : SequencerWorld) : SequencerWorld :=
  if coarse_guard w then
    { w with
      conn := { w.conn with sensors_restarted := [] }
      coarseIssued := w.coarseIssued ++ w.conn.sensors_restarted }
  else w

/-- Guard of the fine-zeroing block (fieldline_lsl_new.py lines 295-300). -/
def fine_guard (w : SequencerWorld) : Bool :=
  !w.conn.sensors_coarse_zeroed.isEmpty &&
    allSelectedChassisEq w.conn.sensors_coarse_zeroed w.conn.sensors_selected

/-- Third block of the polling loop (fieldline_lsl_new.py lines 295-303):
when the guard holds, pop the coarse-zeroed set and issue
`fine_zero_sensors` for exactly that batch. -/
def stage_fine (w : SequencerWorld) : SequencerWorld :=
  if fine_guard w then
    { w with
      conn := { w.conn with sensors_coarse_zeroed := [] }
      fineIssued := w.fineIssued ++ w.conn.sensors_coarse_zeroed }
  else w

/-- Guard of the success block (fieldline_lsl_new.py lines 305-310). -/
def finish_guard (w : SequencerWorld) : Bool :=
  !w.conn.sensors_fine_zeroed.isEmpty &&
    allSelectedChassisEq w.conn.sensors_fine_zeroed w.conn.sensors_selected

/-- Fourth block of the polling loop (fieldline_lsl_new.py lines 305-312):
when all selected sensors are fine-zeroed, the loop breaks. -/
def stage_finish (w : SequencerWorld) : SequencerWorld :=
  if finish_guard w then { w with finished := true } else w

/-- One iteration of the `while fService.is_service_running()` polling loop
of `init_sensors` (fieldline_lsl_new.py lines 245-312): the four blocks are
plain `if`s executed in order within the same iteration. -/
def loop_iteration (cfg : Config) (w : SequencerWorld) : SequencerWorld :=
  stage_finish (stage_fine (stage_coarse (stage_available cfg w)))

/-- Events of a sequencer run: hardware callbacks delivered by the SDK
thread (availability, stage completions) interleaved with iterations of the
polling loop. -/
inductive SequencerEvent
  | sensorsAvailable (c : ℕ) (ss : List ℕ)
  | restartComplete (c s : ℕ)
  | coarseZeroComplete (c s : ℕ)
  | fineZeroComplete (c s : ℕ)
  | loopIteration
deriving DecidableEq, Repr

/-- Effect of each event: the completion callbacks
(`callback_restart_complete`, `callback_coarse_zero_complete`,
`callback_fine_zero_complete`, fieldline_lsl_new.py lines 95-105) add the
sensor to the corresponding per-chassis set. -/
def step_event (cfg : Config) (w : SequencerWorld) : SequencerEvent → SequencerWorld
  | SequencerEvent.sensorsAvailable c ss =>
    { w with conn :=
      { w.conn with sensors_available := insertPairs w.conn.sensors_available c ss } }
  | SequencerEvent.restartComplete c s =>
    { w with conn :=
      { w.conn with sensors_restarted := insertPair w.conn.sensors_restarted (c, s) } }
  | SequencerEvent.coarseZeroComplete c s =>
    { w with conn :=
      { w.conn with sensors_coarse_zeroed := insertPair w.conn.sensors_coarse_zeroed (c, s) } }
  | SequencerEvent.fineZeroComplete c s =>
    { w with conn :=
      { w.conn with sensors_fine_zeroed := insertPair w.conn.sensors_fine_zeroed (c, s) } }
  | SequencerEvent.loopIteration => loop_iteration cfg w

/-- Environment constraint on the hardware: a completion callback is
delivered only for a sensor whose corresponding operation was issued. -/
def event_valid (w : SequencerWorld) : SequencerEvent → Prop
  | SequencerEvent.restartComplete c s => (c, s) ∈ w.restartIssued
  | SequencerEvent.coarseZeroComplete c s => (c, s) ∈ w.coarseIssued
  | SequencerEvent.fineZeroComplete c s => (c, s) ∈ w.fineIssued
  | _ => True

/-- States of the `init_sensors` run reachable from the initial state by
valid events. -/
inductive Reachable (cfg : Config) : SequencerWorld → Prop
  | init : Reachable cfg initialSequencerWorld
  | step {w : SequencerWorld} (e : SequencerEvent) :
      Reachable cfg w → event_valid w e → Reachable cfg (step_event cfg w e)

/-- `a` is a subset of `b`, as sets of sensor pairs. -/
def pairSubset (a b : List (ℕ × ℕ)) : Prop :=
  ∀ p, p ∈ a → p ∈ b

/-- Sequencer invariant: every restarted, coarse-zeroed or operation-issued
sensor is a selected sensor. -/
def SeqInv (w : SequencerWorld) : Prop :=
  pairSubset w.conn.sensors_restarted w.conn.sensors_selected ∧
  pairSubset w.conn.sensors_coarse_zeroed w.conn.sensors_selected ∧
  pairSubset w.restartIssued w.conn.sensors_selected ∧
  pairSubset w.coarseIssued w.conn.sensors_selected ∧
  pairSubset w.fineIssued w.conn.sensors_selected

/-- Insertion step of a sorted-insertion sort on strings. -/
def insertSorted (x : String) : List String → List String
  | [] => [x]
  | y :: ys => if x ≤ y then x :: y :: ys else y :: insertSorted x ys

/-- Python's `sorted(...)` on a list of IP strings (start_lsl_stream.py line
41), modelled as insertion sort: a sorted permutation of the input; the
claims about `find_chassis` depend only on membership and emptiness. -/
def sortStrings (l : List String) : List String :=
  l.foldr insertSorted []

/-- Result of `find_chassis`: either `sys.exit(code)` after `fService.stop()`
or the chassis list to connect to. -/
inductive FindChassisResult
  | exited (code : ℕ) (serviceStopped : Bool)
  | ok (chassis_list : List String)
deriving DecidableEq, Repr

/-- `find_chassis` (start_lsl_stream.py lines 38-61): sort the discovered
chassis; with none discovered, stop the service and exit 1; with an expected
list given, exit 1 unless every expected ip was discovered, else connect to
the expected list; with no expected list, connect to all discovered. -/
def find_chassis (discovered_raw : List String)
    (expected_chassis : Option (List String)) : FindChassisResult :=
  let discovered := sortStrings discovered_raw
  if discovered.isEmpty then FindChassisResult.exited 1 true
  else
    match expected_chassis with
    | some expected =>
      if expected.all (fun ip => decide (ip ∈ discovered)) then
        FindChassisResult.ok expected
      else FindChassisResult.exited 1 true
    | none => FindChassisResult.ok discovered

/-- Modelled from the spec: the per-stage sensor sets of the
`FieldLineConnector` used by start_lsl_stream.py (its module,
fieldline_lsl_connector.py, is not among the sources; the spec describes the
connector as per-chassis readiness sets populated by callbacks and drained
by the polling loop).  `valid` is the set marked by `set_sensor_valid`;
the `num_..._sensors` accessors are the sizes of these sets. -/
structure StartConnState where
  sensors_ready : List (ℕ × ℕ)
  valid : List (ℕ × ℕ)
  restarted : List (ℕ × ℕ)
  coarse_zeroed : List (ℕ × ℕ)
  fine_zeroed : List (ℕ × ℕ)
deriving DecidableEq, Repr

/-- The ready-sensors branch of the start_lsl_stream.py loop (lines
138-158): pop the ready set; an accepted sensor (expected and not excluded)
is marked valid and restarted (or, with `--disable-restart`, directly
reported restarted via `callback_restart_complete`); others are turned
off. -/
def process_ready (expected : Option (List (ℕ × ℕ))) (excluded : List (ℕ × ℕ))
    (disable_restart : Bool) (st : StartConnState) : StartConnState :=
  let ready := st.sensors_ready
  let st1 := { st with sensors_ready := [] }
  ready.foldl
    (fun acc p =>
      if expected_check expected p.1 p.2 &&
          excluded_check_start excluded p.1 p.2 then
        let acc1 := { acc with valid := insertPair acc.valid p }
        if disable_restart then
          { acc1 with restarted := insertPair acc1.restarted p }
        else acc1
      else acc)
    st1

/-- Test whether all expected sensors are fine-zeroed (start_lsl_stream.py
lines 177-178). -/
def expected_all_fine (expected : Option (List (ℕ × ℕ)))
    (st : StartConnState) : Bool :=
  match expected with
  | none => true
  | some exp => exp.all (fun p => pairMem st.fine_zeroed p)

/-- Outcome of one iteration of the start_lsl_stream.py initialization
loop: `sys.exit(code)` after `fService.stop()`, a `break` out of the loop
(initialization success), or continuing with an updated connector state. -/
inductive InitStepOutcome
  | fatalExit (code : ℕ) (serviceStopped : Bool)
  | initSuccess
  | continueLoop (st : StartConnState)
deriving DecidableEq, Repr

/-- The `elif` chain of the initialization loop (start_lsl_stream.py lines
138-185): ready sensors are processed; restarted (resp. coarse-zeroed)
sensors are batch coarse-zeroed (resp. fine-zeroed) once the valid and
completed counts agree, draining the completed set; with all expected
sensors fine-zeroed the loop breaks; with fewer valid sensors than expected
the service is stopped and the process exits 1. -/
def init_chain (expected : Option (List (ℕ × ℕ))) (excluded : List (ℕ × ℕ))
    (disable_restart : Bool) (st : StartConnState) : InitStepOutcome :=
  if !st.sensors_ready.isEmpty then
    InitStepOutcome.continueLoop (process_ready expected excluded disable_restart st)
  else if !st.restarted.isEmpty && st.valid.length == st.restarted.length then
    InitStepOutcome.continueLoop { st with restarted := [] }
  else if !st.coarse_zeroed.isEmpty && st.valid.length == st.coarse_zeroed.length then
    InitStepOutcome.continueLoop { st with coarse_zeroed := [] }
  else if !st.fine_zeroed.isEmpty && st.valid.length == st.fine_zeroed.length then
    if expected_all_fine expected st then InitStepOutcome.initSuccess
    else InitStepOutcome.continueLoop st
  else if expected.isSome && decide (st.valid.length < (expected.getD []).length) then
    InitStepOutcome.fatalExit 1 true
  else InitStepOutcome.continueLoop st

/-- One full iteration of the initialization loop (start_lsl_stream.py lines
134-194): the `elif` chain followed, when the iteration neither exited nor
broke, by the empty-expected-list break and by the initialization-timeout
check (`(datetime.now() - init_starttime) > init_timeout` stops the service
and exits 1). -/
def init_loop_body (expected : Option (List (ℕ × ℕ))) (excluded : List (ℕ × ℕ))
    (disable_restart : Bool) (st : StartConnState) (elapsed timeout : ℚ) :
    InitStepOutcome :=
  match init_chain expected excluded disable_restart st with
  | InitStepOutcome.continueLoop st2 =>
    if expected = some [] then InitStepOutcome.initSuccess
    else if timeout < elapsed then InitStepOutcome.fatalExit 1 true
    else InitStepOutcome.continueLoop st2
  | r => r

/-- Modelled from the spec: the connector callbacks of start_lsl_stream.py's
`FieldLineConnector` (module not among the sources), each adding one sensor
to the corresponding readiness set. -/
inductive StartCbEvent
  | sensorReady (c s : ℕ)
  | restartDone (c s : ℕ)
  | coarseDone (c s : ℕ)
  | fineDone (c s : ℕ)
deriving DecidableEq, Repr

/-- Effect of one connector callback on the connector state. -/
def apply_start_cb (st : StartConnState) : StartCbEvent → StartConnState
  | StartCbEvent.sensorReady c s =>
    { st with sensors_ready := insertPair st.sensors_ready (c, s) }
  | StartCbEvent.restartDone c s =>
    { st with restarted := insertPair st.restarted (c, s) }
  | StartCbEvent.coarseDone c s =>
    { st with coarse_zeroed := insertPair st.coarse_zeroed (c, s) }
  | StartCbEvent.fineDone c s =>
    { st with fine_zeroed := insertPair st.fine_zeroed (c, s) }

/-- A run of the start_lsl_stream.py script from the initialization loop on,
over a schedule of per-iteration callback batches and elapsed times,
returning the process exit code: a fatal iteration exits with its code; when
the loop breaks (success) or the service stops (schedule exhausted), the
script runs the streaming phase to completion and exits 0. -/
def run_start_init (expected : Option (List (ℕ × ℕ))) (excluded : List (ℕ × ℕ))
    (disable_restart : Bool) (timeout : ℚ) :
    List (List StartCbEvent × ℚ) → StartConnState → ℕ
  | [], _ => 0
  | (evs, elapsed) :: rest, st =>
    let st1 := evs.foldl apply_start_cb st
    match init_loop_body expected excluded disable_restart st1 elapsed timeout with
    | InitStepOutcome.fatalExit code _ => code
    | InitStepOutcome.initSuccess => 0
    | InitStepOutcome.continueLoop st2 =>
      run_start_init expected excluded disable_restart timeout rest st2

/-- The connector state with all readiness sets empty. -/
def stEmpty : StartConnState :=
  { sensors_ready := [], valid := [], restarted := [], coarse_zeroed := [],
    fine_zeroed := [] }

/-- A connector state whose single valid sensor is fine-zeroed. -/
def stFine : StartConnState :=
  { sensors_ready := [], valid := [(0, 1)], restarted := [],
    coarse_zeroed := [], fine_zeroed := [(0, 1)] }

-- Concrete channels, relay configurations, queue items and sequencer
-- configurations used by the closed witness and counterexample theorems.

def chOPM : ChannelInfo :=
  { name := "00:01:28", chassis_id := 0, sensor_id := 1, data_type := "28",
    calibration := 3, location := "" }

def chADC : ChannelInfo :=
  { name := "00:01:0", chassis_id := 0, sensor_id := 1, data_type := "0",
    calibration := 5, location := "" }

def chUnknown : ChannelInfo :=
  { name := "00:01:99", chassis_id := 0, sensor_id := 1, data_type := "99",
    calibration := 2, location := "" }

def cfgC2 : RelayConfig :=
  { channel_names := ["00:01:28"]
    calibration_dict := set_calibration_dict Unit_T_Factor.fT.value [chOPM]
    channel_count := 1
    first_lsl_timestamp := 10
    first_chassis_timestamp := 1000 }

def itemC2 : DataItem :=
  { timestamp := 26000, data_frames := [("00:01:28", 2)] }

def idxC2 : Fin cfgC2.channel_names.length := ⟨0, by decide⟩

def cfgMissing : RelayConfig :=
  { channel_names := ["00:01:28", "00:01:0"]
    calibration_dict := [("00:01:28", 2), ("00:01:0", 1)]
    channel_count := 2
    first_lsl_timestamp := 0
    first_chassis_timestamp := 0 }

def itemMissing : DataItem :=
  { timestamp := 1000, data_frames := [("00:01:28", 3)] }

def itemComplete : DataItem :=
  { timestamp := 2000, data_frames := [("00:01:28", 3), ("00:01:0", 4)] }

def cfgMismatch : RelayConfig :=
  { channel_names := ["00:01:28"]
    calibration_dict := [("00:01:28", 2)]
    channel_count := 2
    first_lsl_timestamp := 0
    first_chassis_timestamp := 0 }

def cfgW : Config :=
  { expected_sensors := none, excluded_sensors := [], disable_restart := false }

def seqTraceWorld : SequencerWorld :=
  step_event cfgW
    (step_event cfgW
      (step_event cfgW initialSequencerWorld (SequencerEvent.sensorsAvailable 0 [1]))
      SequencerEvent.loopIteration)
    (SequencerEvent.restartComplete 0 1)

def cfgExcluded : Config :=
  { expected_sensors := none, excluded_sensors := [(0, 1)], disable_restart := false }

def cfgNotExpected : Config :=
  { expected_sensors := some [], excluded_sensors := [], disable_restart := false }

end FieldlineLSL

namespace FieldlineLSL

/-- C1: the publish timestamp computed by `get_timestamp` equals
`first_lsl_timestamp + (chassis_timestamp - first_chassis_timestamp) / 25000`;
the anchor frame maps exactly to the recorded local clock value, and the
timestamp difference of any two ticks is their tick difference divided by
25000. -/
theorem get_timestamp_spec :
    (∀ L0 t0 t : ℚ, get_timestamp L0 t0 t = L0 + (t - t0) / 25000) ∧
    (∀ L0 t0 : ℚ, get_timestamp L0 t0 t0 = L0) ∧
    (∀ L0 t0 t1 t2 : ℚ,
      get_timestamp L0 t0 t2 - get_timestamp L0 t0 t1 = (t2 - t1) / 25000) := by
  refine ⟨fun L0 t0 t => rfl, fun L0 t0 => by simp [get_timestamp], ?_⟩
  intro L0 t0 t1 t2
  unfold get_timestamp
  ring

/-- A successfully built sample has one value per channel name. -/
theorem build_sample_length (dfs cal : List (String × ℚ)) :
    ∀ (names : List String) (sample : List ℚ),
      build_sample dfs cal names = some sample → sample.length = names.length := by
  intro names
  induction names with
  | nil =>
    intro sample h
    simp only [build_sample, Option.some.injEq] at h
    simp [← h]
  | cons name names ih =>
    intro sample h
    rw [build_sample] at h
    cases hdf : lookup dfs name with
    | none => rw [hdf] at h; exact absurd h (by simp)
    | some raw =>
      cases hc : lookup cal name with
      | none => rw [hdf, hc] at h; exact absurd h (by simp)
      | some c =>
        cases hrest : build_sample dfs cal names with
        | none => rw [hdf, hc, hrest] at h; exact absurd h (by simp)
        | some rest =>
          rw [hdf, hc, hrest] at h
          simp only [Option.some.injEq] at h
          rw [← h]
          simp [ih rest hrest]

/-- Each entry of a successfully built sample is the raw device reading for
that channel name times the calibration-dictionary value for it. -/
theorem build_sample_get (dfs cal : List (String × ℚ)) :
    ∀ (names : List String) (sample : List ℚ),
      build_sample dfs cal names = some sample →
      ∀ i (hi : i < names.length),
        ∃ raw c,
          lookup dfs (names.get ⟨i, hi⟩) = some raw ∧
          lookup cal (names.get ⟨i, hi⟩) = some c ∧
          sample.get? i = some (raw * c) := by
  intro names
  induction names with
  | nil => intro sample _ i hi; exact absurd hi (by simp)
  | cons name names ih =>
    intro sample h i hi
    rw [build_sample] at h
    cases hdf : lookup dfs name with
    | none => rw [hdf] at h; exact absurd h (by simp)
    | some raw =>
      cases hc : lookup cal name with
      | none => rw [hdf, hc] at h; exact absurd h (by simp)
      | some c =>
        cases hrest : build_sample dfs cal names with
        | none => rw [hdf, hc, hrest] at h; exact absurd h (by simp)
        | some rest =>
          rw [hdf, hc, hrest] at h
          simp only [Option.some.injEq] at h
          cases i with
          | zero => exact ⟨raw, c, hdf, hc, by rw [← h]; rfl⟩
          | succ j =>
            have hj : j < names.length := Nat.lt_of_succ_lt_succ hi
            obtain ⟨raw', c', h1, h2, h3⟩ := ih rest hrest j hj
            exact ⟨raw', c', h1, h2, by rw [← h]; simpa using h3⟩

/-- If any layout channel name is absent from the data frames, building the
sample raises (returns `none`). -/
theorem build_sample_none_of_missing (dfs cal : List (String × ℚ)) :
    ∀ (names : List String) (name : String),
      name ∈ names → lookup dfs name = none →
      build_sample dfs cal names = none := by
  intro names
  induction names with
  | nil => intro name hmem _; exact absurd hmem (by simp)
  | cons n names ih =>
    intro name hmem hmiss
    rw [build_sample]
    rcases List.mem_cons.mp hmem with heq | htail
    · rw [← heq, hmiss]
    · cases hdf : lookup dfs n with
      | none => rfl
      | some raw =>
        cases hc : lookup cal n with
        | none => rfl
        | some c => rw [ih name htail hmiss]

/-- A pushed outcome comes from a successfully built sample that passed the
channel-count check, with the timestamp from `get_timestamp`. -/
theorem process_item_pushed (cfg : RelayConfig) (item : DataItem)
    (sample : List ℚ) (ts : ℚ)
    (h : process_item cfg item = RelayOutcome.pushed sample ts) :
    build_sample item.data_frames cfg.calibration_dict cfg.channel_names =
      some sample ∧
    ts = get_timestamp cfg.first_lsl_timestamp cfg.first_chassis_timestamp
      item.timestamp := by
  unfold process_item at h
  cases hb : build_sample item.data_frames cfg.calibration_dict cfg.channel_names with
  | none => rw [hb] at h; exact absurd h (by simp)
  | some s =>
    rw [hb] at h
    unfold push_sample at h
    dsimp only at h
    by_cases hl : s.length = cfg.channel_count
    · rw [if_pos hl] at h
      dsimp only at h
      simp only [RelayOutcome.pushed.injEq] at h
      exact ⟨by rw [h.1], h.2.symm⟩
    · rw [if_neg hl] at h
      exact absurd h (by simp)

/-- Looking a channel's name up in the calibration dictionary built by
`_set_calibration_dict` yields that channel's scale factor, provided channel
names are distinct. -/
theorem lookup_set_calibration_dict (f : ℚ) :
    ∀ (channels : List ChannelInfo) (ch : ChannelInfo),
      ch ∈ channels → (channels.map ChannelInfo.name).Nodup →
      lookup (set_calibration_dict f channels) ch.name =
        some (calibrationValue f ch) := by
  intro channels
  induction channels with
  | nil => intro ch hmem _; exact absurd hmem (by simp)
  | cons c0 rest ih =>
    intro ch hmem hnodup
    simp only [List.map_cons, List.nodup_cons] at hnodup
    simp only [set_calibration_dict, List.map_cons, lookup]
    by_cases heq : c0.name = ch.name
    · rw [if_pos heq]
      rcases List.mem_cons.mp hmem with hc | htail
      · rw [hc]
      · exact absurd (heq ▸ List.mem_map_of_mem ChannelInfo.name htail) hnodup.1
    · rw [if_neg heq]
      rcases List.mem_cons.mp hmem with hc | htail
      · exact absurd (congrArg ChannelInfo.name hc.symm) heq
      · exact ih ch htail hnodup.2

/-- C2: every outgoing sample value pushed by the relay loop is the raw
device reading times the channel's fixed scale factor; the scale factor of a
magnetometer (OPM) channel is the SDK calibration times the chosen unit
factor (10^15 for femtotesla), and that of an ADC channel is the SDK
calibration unmodified. -/
theorem sample_scaling_spec :
    (∀ (u : Unit_T_Factor) (ch : ChannelInfo),
      is_OPM_type ch.data_type = true →
        calibrationValue u.value ch = ch.calibration * u.value) ∧
    (∀ (u : Unit_T_Factor) (ch : ChannelInfo),
      get_data_type ch.data_type = some FieldLineDataType.ADC →
        calibrationValue u.value ch = ch.calibration) ∧
    Unit_T_Factor.fT.value = 10 ^ 15 ∧
    (∀ (f : ℚ) (channels : List ChannelInfo) (ch : ChannelInfo),
      ch ∈ channels → (channels.map ChannelInfo.name).Nodup →
        lookup (set_calibration_dict f channels) ch.name =
          some (calibrationValue f ch)) ∧
    (∀ (cfg : RelayConfig) (item : DataItem) (sample : List ℚ) (ts : ℚ),
      process_item cfg item = RelayOutcome.pushed sample ts →
      ∀ i (hi : i < cfg.channel_names.length),
        ∃ raw cal,
          lookup item.data_frames (cfg.channel_names.get ⟨i, hi⟩) = some raw ∧
          lookup cfg.calibration_dict (cfg.channel_names.get ⟨i, hi⟩) = some cal ∧
          sample.get? i = some (raw * cal)) := by
  refine ⟨?_, ?_, rfl, fun f channels ch hm hn =>
    lookup_set_calibration_dict f channels ch hm hn, ?_⟩
  · intro u ch h
    simp [calibrationValue, h]
  · intro u ch h
    have hOPM : is_OPM_type ch.data_type = false := by
      simp [is_OPM_type, h]
    simp [calibrationValue, hOPM]
  · intro cfg item sample ts h i hi
    exact build_sample_get item.data_frames cfg.calibration_dict
      cfg.channel_names sample (process_item_pushed cfg item sample ts h).1 i hi

/-- Witness for C2 at a concrete OPM channel, ADC channel and pushed frame. -/
theorem sample_scaling_spec_witness :
    calibrationValue Unit_T_Factor.fT.value chOPM =
      chOPM.calibration * Unit_T_Factor.fT.value ∧
    calibrationValue Unit_T_Factor.fT.value chADC = chADC.calibration ∧
    lookup (set_calibration_dict Unit_T_Factor.fT.value [chOPM, chADC])
      chOPM.name = some (calibrationValue Unit_T_Factor.fT.value chOPM) ∧
    (∃ raw cal,
      lookup itemC2.data_frames (cfgC2.channel_names.get idxC2) = some raw ∧
      lookup cfgC2.calibration_dict (cfgC2.channel_names.get idxC2) = some cal ∧
      (([2 * (3 * 10 ^ 15)] : List ℚ).get? 0) = some (raw * cal)) :=
  ⟨sample_scaling_spec.1 Unit_T_Factor.fT chOPM (by decide),
   sample_scaling_spec.2.1 Unit_T_Factor.fT chADC (by decide),
   sample_scaling_spec.2.2.2.1 Unit_T_Factor.fT.value [chOPM, chADC] chOPM
     (by simp) (by decide),
   sample_scaling_spec.2.2.2.2 cfgC2 itemC2 [2 * (3 * 10 ^ 15)] 11
     (by
       simp only [process_item, build_sample, lookup, cfgC2, itemC2, chOPM,
         set_calibration_dict, calibrationValue, is_OPM_type, get_data_type,
         push_sample, get_timestamp, Unit_T_Factor.value, List.map_cons,
         List.map_nil,
         show ¬("28" = "0") from by decide,
         show ("28" = "28") from rfl,
         show ("00:01:28" = "00:01:28") from rfl, if_true, if_false,
         ite_true, ite_false, List.length_cons, List.length_nil]
       norm_num) 0 idxC2.isLt⟩

/-- C9: a channel whose data-type code is not one of the known codes is
classified with type `'misc'`, unit `'?'` and mode `'Unknown'` instead of
raising an error. -/
theorem unknown_data_type_desc (u : Unit_T_Factor) (ch : ChannelInfo)
    (h : get_data_type ch.data_type = none) :
    (get_channel_desc_dict u ch).type = "misc" ∧
    (get_channel_desc_dict u ch).unit = "?" ∧
    (get_channel_desc_dict u ch).mode = "Unknown" := by
  simp [get_channel_desc_dict, h]

/-- Witness for C9 at the unknown data-type code "99". -/
theorem unknown_data_type_desc_witness :
    (get_channel_desc_dict Unit_T_Factor.fT chUnknown).type = "misc" ∧
    (get_channel_desc_dict Unit_T_Factor.fT chUnknown).unit = "?" ∧
    (get_channel_desc_dict Unit_T_Factor.fT chUnknown).mode = "Unknown" :=
  unknown_data_type_desc Unit_T_Factor.fT chUnknown (by decide)

/-- Once both anchor fields are set, no later invocation of
`callback_data_available` changes them. -/
theorem run_callbacks_preserves_anchor (L t : ℚ) :
    ∀ (events : List (ℚ × DataItem)) (st : CallbackState),
      st.first_lsl_timestamp = some L →
      st.first_chassis_timestamp = some t →
      (run_callbacks st events).first_lsl_timestamp = some L ∧
      (run_callbacks st events).first_chassis_timestamp = some t := by
  intro events
  induction events with
  | nil => intro st h1 h2; exact ⟨h1, h2⟩
  | cons ev evs ih =>
    intro st h1 h2
    obtain ⟨clk, d⟩ := ev
    have hcb : callback_data_available clk st d =
        { st with data_queue := st.data_queue ++ [d] } := by
      simp [callback_data_available, h1]
    rw [run_callbacks, hcb]
    exact ih _ h1 h2

/-- C7: the clock-sync anchor pair is recorded exactly once, at the first
received data frame, and keeps those values across every later invocation of
the data callback (the relay loop, `process_item`, only reads the anchors
and never writes them). -/
theorem anchor_recorded_once (L0 : ℚ) (d0 : DataItem)
    (events : List (ℚ × DataItem)) :
    (run_callbacks initialCallbackState ((L0, d0) :: events)).first_lsl_timestamp
      = some L0 ∧
    (run_callbacks initialCallbackState
        ((L0, d0) :: events)).first_chassis_timestamp = some d0.timestamp := by
  rw [run_callbacks]
  exact run_callbacks_preserves_anchor L0 d0.timestamp events _ rfl rfl

/-- C5 counterexample: a frame omitting layout channel "00:01:0" does not
merely drop that sample — the relay thread dies on an uncaught `KeyError`
(the sample construction is outside the `try` block, which only catches
`ValueError`), and the next, perfectly well-formed queued item is never
processed; processed alone, that next item would have been pushed. -/
theorem missing_channel_claim_counterexample :
    process_item cfgMissing itemMissing = RelayOutcome.crashedKeyError ∧
    process_item cfgMissing itemMissing ≠ RelayOutcome.droppedValueError ∧
    relay_run cfgMissing [itemMissing, itemComplete] = ([], true) ∧
    relay_run cfgMissing [itemComplete] =
      ([([3 * 2, 4 * 1], get_timestamp 0 0 2000)], false) := by
  refine ⟨by decide, by decide, by decide, ?_⟩
  simp only [relay_run, process_item, build_sample, lookup, cfgMissing,
    itemComplete, push_sample, get_timestamp,
    show ¬("00:01:28" = "00:01:0") from by decide,
    show ("00:01:28" = "00:01:28") from rfl,
    show ("00:01:0" = "00:01:0") from rfl, if_true, if_false, ite_true,
    ite_false, List.length_cons, List.length_nil]

/-- C5 amended: a frame whose channel-value mapping omits a channel of the
fixed layout makes the relay loop terminate with an uncaught `KeyError`:
the sample is not pushed and the remaining queued items are not processed. -/
theorem missing_channel_crashes_thread (cfg : RelayConfig) (item : DataItem)
    (rest : List DataItem) (name : String)
    (hmem : name ∈ cfg.channel_names)
    (hmiss : lookup item.data_frames name = none) :
    process_item cfg item = RelayOutcome.crashedKeyError ∧
    relay_run cfg (item :: rest) = ([], true) := by
  have hb : build_sample item.data_frames cfg.calibration_dict
      cfg.channel_names = none :=
    build_sample_none_of_missing item.data_frames cfg.calibration_dict
      cfg.channel_names name hmem hmiss
  have hp : process_item cfg item = RelayOutcome.crashedKeyError := by
    unfold process_item
    rw [hb]
  refine ⟨hp, ?_⟩
  rw [relay_run, hp]

/-- Witness for the amended C5 statement at a concrete frame. -/
theorem missing_channel_crashes_thread_witness :
    process_item cfgMissing itemMissing = RelayOutcome.crashedKeyError ∧
    relay_run cfgMissing [itemMissing] = ([], true) :=
  missing_channel_crashes_thread cfgMissing itemMissing [] "00:01:0"
    (by decide) (by decide)

/-- C8: a queued item whose sample vector length differs from the declared
channel count makes `push_sample` raise `ValueError`; the relay loop catches
it, drops that one sample, and continues with the rest of the queue — no
retry, no stream restart. -/
theorem dimension_mismatch_dropped (cfg : RelayConfig) (item : DataItem)
    (sample : List ℚ) (rest : List DataItem)
    (hb : build_sample item.data_frames cfg.calibration_dict
      cfg.channel_names = some sample)
    (hlen : sample.length ≠ cfg.channel_count) :
    push_sample cfg.channel_count sample
      (get_timestamp cfg.first_lsl_timestamp cfg.first_chassis_timestamp
        item.timestamp) = Except.error () ∧
    process_item cfg item = RelayOutcome.droppedValueError ∧
    relay_run cfg (item :: rest) = relay_run cfg rest := by
  have hpush : push_sample cfg.channel_count sample
      (get_timestamp cfg.first_lsl_timestamp cfg.first_chassis_timestamp
        item.timestamp) = Except.error () := by
    unfold push_sample
    rw [if_neg hlen]
  have hp : process_item cfg item = RelayOutcome.droppedValueError := by
    unfold process_item
    rw [hb]
    dsimp only
    rw [hpush]
  refine ⟨hpush, hp, ?_⟩
  rw [relay_run, hp]

/-- Witness for C8: a one-channel frame against a stream declaring two
channels is dropped and the loop moves on. -/
theorem dimension_mismatch_dropped_witness :
    process_item cfgMismatch itemMissing = RelayOutcome.droppedValueError ∧
    relay_run cfgMismatch [itemMissing] = relay_run cfgMismatch [] :=
  And.right
    (dimension_mismatch_dropped cfgMismatch itemMissing [3 * 2] []
      (by
        simp only [build_sample, lookup, cfgMismatch, itemMissing,
          show ("00:01:28" = "00:01:28") from rfl, if_true, ite_true])
      (by decide))

theorem pairMem_iff (l : List (ℕ × ℕ)) (p : ℕ × ℕ) :
    pairMem l p = true ↔ p ∈ l := by
  unfold pairMem
  rw [List.any_eq_true]
  constructor
  · rintro ⟨q, hq, hdec⟩
    exact of_decide_eq_true hdec ▸ hq
  · intro hp
    exact ⟨p, hp, by simp⟩

theorem mem_insertPair {l : List (ℕ × ℕ)} {p q : ℕ × ℕ} :
    q ∈ insertPair l p ↔ q ∈ l ∨ q = p := by
  unfold insertPair
  by_cases h : pairMem l p = true
  · rw [if_pos h]
    constructor
    · exact Or.inl
    · rintro (hq | rfl)
      · exact hq
      · exact (pairMem_iff l q).mp h
  · rw [if_neg h]
    simp [List.mem_append]

theorem nil_pairSubset (b : List (ℕ × ℕ)) : pairSubset [] b :=
  fun p hp => absurd hp (List.not_mem_nil p)

theorem pairSubset_insert_right {a b : List (ℕ × ℕ)} (p : ℕ × ℕ)
    (h : pairSubset a b) : pairSubset a (insertPair b p) :=
  fun q hq => mem_insertPair.mpr (Or.inl (h q hq))

theorem insertPair_pairSubset {a b : List (ℕ × ℕ)} {p : ℕ × ℕ}
    (h : pairSubset a b) (hp : p ∈ b) : pairSubset (insertPair a p) b := by
  intro q hq
  rcases mem_insertPair.mp hq with h1 | h2
  · exact h q h1
  · exact h2 ▸ hp

theorem mem_insertPair_self (l : List (ℕ × ℕ)) (p : ℕ × ℕ) :
    p ∈ insertPair l p :=
  mem_insertPair.mpr (Or.inr rfl)

theorem handle_available_new_inv (cfg : Config) (w : SequencerWorld) (c s : ℕ)
    (h : SeqInv w) : SeqInv (handle_available_new cfg w c s) := by
  obtain ⟨h1, h2, h3, h4, h5⟩ := h
  unfold handle_available_new
  by_cases hacc : (expected_check cfg.expected_sensors c s &&
      excluded_check_new cfg.excluded_sensors c s) = true
  · rw [if_pos hacc]
    by_cases hdr : cfg.disable_restart = true
    · rw [if_pos hdr]
      exact ⟨insertPair_pairSubset (pairSubset_insert_right (c, s) h1)
          (mem_insertPair_self _ _),
        pairSubset_insert_right (c, s) h2,
        pairSubset_insert_right (c, s) h3,
        pairSubset_insert_right (c, s) h4,
        pairSubset_insert_right (c, s) h5⟩
    · rw [if_neg hdr]
      exact ⟨pairSubset_insert_right (c, s) h1,
        pairSubset_insert_right (c, s) h2,
        insertPair_pairSubset (pairSubset_insert_right (c, s) h3)
          (mem_insertPair_self _ _),
        pairSubset_insert_right (c, s) h4,
        pairSubset_insert_right (c, s) h5⟩
  · rw [if_neg hacc]
    exact ⟨h1, h2, h3, h4, h5⟩

theorem fold_handle_inv (cfg : Config) :
    ∀ (l : List (ℕ × ℕ)) (w : SequencerWorld), SeqInv w →
      SeqInv (l.foldl (fun acc p => handle_available_new cfg acc p.1 p.2) w) := by
  intro l
  induction l with
  | nil => intro w h; exact h
  | cons p rest ih =>
    intro w h
    exact ih _ (handle_available_new_inv cfg w p.1 p.2 h)

theorem stage_available_inv (cfg : Config) (w : SequencerWorld)
    (h : SeqInv w) : SeqInv (stage_available cfg w) := by
  unfold stage_available
  by_cases he : w.conn.sensors_available.isEmpty = true
  · rw [if_pos he]; exact h
  · rw [if_neg he]
    obtain ⟨h1, h2, h3, h4, h5⟩ := h
    exact fold_handle_inv cfg _ _ ⟨h1, h2, h3, h4, h5⟩

theorem stage_coarse_inv (w : SequencerWorld) (h : SeqInv w) :
    SeqInv (stage_coarse w) := by
  obtain ⟨h1, h2, h3, h4, h5⟩ := h
  unfold stage_coarse
  by_cases hg : coarse_guard w = true
  · rw [if_pos hg]
    refine ⟨nil_pairSubset _, h2, h3, ?_, h5⟩
    intro p hp
    rcases List.mem_append.mp hp with ha | hb
    · exact h4 p ha
    · exact h1 p hb
  · rw [if_neg hg]
    exact ⟨h1, h2, h3, h4, h5⟩

theorem stage_fine_inv (w : SequencerWorld) (h : SeqInv w) :
    SeqInv (stage_fine w) := by
  obtain ⟨h1, h2, h3, h4, h5⟩ := h
  unfold stage_fine
  by_cases hg : fine_guard w = true
  · rw [if_pos hg]
    refine ⟨h1, nil_pairSubset _, h3, h4, ?_⟩
    intro p hp
    rcases List.mem_append.mp hp with ha | hb
    · exact h5 p ha
    · exact h2 p hb
  · rw [if_neg hg]
    exact ⟨h1, h2, h3, h4, h5⟩

theorem stage_finish_inv (w : SequencerWorld) (h : SeqInv w) :
    SeqInv (stage_finish w) := by
  obtain ⟨h1, h2, h3, h4, h5⟩ := h
  unfold stage_finish
  by_cases hg : finish_guard w = true
  · rw [if_pos hg]
    exact ⟨h1, h2, h3, h4, h5⟩
  · rw [if_neg hg]
    exact ⟨h1, h2, h3, h4, h5⟩

theorem step_event_inv (cfg : Config) (w : SequencerWorld) (e : SequencerEvent)
    (hv : event_valid w e) (h : SeqInv w) : SeqInv (step_event cfg w e) := by
  obtain ⟨h1, h2, h3, h4, h5⟩ := h
  cases e with
  | sensorsAvailable c ss => exact ⟨h1, h2, h3, h4, h5⟩
  | restartComplete c s =>
    exact ⟨insertPair_pairSubset h1 (h3 _ hv), h2, h3, h4, h5⟩
  | coarseZeroComplete c s =>
    exact ⟨h1, insertPair_pairSubset h2 (h4 _ hv), h3, h4, h5⟩
  | fineZeroComplete c s => exact ⟨h1, h2, h3, h4, h5⟩
  | loopIteration =>
    exact stage_finish_inv _ (stage_fine_inv _ (stage_coarse_inv _
      (stage_available_inv cfg _ ⟨h1, h2, h3, h4, h5⟩)))

theorem reachable_inv {cfg : Config} {w : SequencerWorld}
    (h : Reachable cfg w) : SeqInv w := by
  induction h with
  | init =>
    exact ⟨nil_pairSubset _, nil_pairSubset _, nil_pairSubset _,
      nil_pairSubset _, nil_pairSubset _⟩
  | step e hr hv ih => exact step_event_inv _ _ e hv ih

theorem exists_of_onChassis_ne_nil (l : List (ℕ × ℕ)) (c : ℕ)
    (h : onChassis l c ≠ []) : ∃ s, (c, s) ∈ l := by
  unfold onChassis at h
  cases hf : l.filter (fun p => decide (p.1 = c)) with
  | nil => rw [hf] at h; exact absurd rfl h
  | cons p rest =>
    have hp : p ∈ l.filter (fun p => decide (p.1 = c)) := by
      rw [hf]; exact List.mem_cons_self p rest
    have hmem := List.mem_filter.mp hp
    have hc : p.1 = c := by simpa using hmem.2
    exact ⟨p.2, by rw [← hc]; exact hmem.1⟩

theorem batch_chassis_eq (completed selected : List (ℕ × ℕ))
    (hsub : pairSubset completed selected)
    (hall : allSelectedChassisEq completed selected = true) :
    ∀ c, onChassis completed c ≠ [] →
      natSetEq (onChassis completed c) (onChassis selected c) = true := by
  intro c hne
  obtain ⟨s, hs⟩ := exists_of_onChassis_ne_nil completed c hne
  have hcs : (c, s) ∈ selected := hsub _ hs
  have hkey : c ∈ chassisKeys selected := by
    unfold chassisKeys
    exact List.mem_dedup.mpr (List.mem_map_of_mem Prod.fst hcs)
  unfold allSelectedChassisEq at hall
  exact List.all_eq_true.mp hall c hkey

/-- C3: in every reachable state of the `init_sensors` polling loop, a
coarse-zero (resp. fine-zero) batch operation fires only when, for every
chassis with a nonempty batch, the set of sensors that completed the
previous stage on that chassis is set-equal to the selected sensors on that
chassis.  The guards are evaluated exactly at the states at which
`fService.coarse_zero_sensors` / `fService.fine_zero_sensors` are invoked
inside `loop_iteration`. -/
theorem stage_transition_gated (cfg : Config) (w : SequencerWorld)
    (h : Reachable cfg w) :
    (coarse_guard (stage_available cfg w) = true →
      ∀ c, onChassis (stage_available cfg w).conn.sensors_restarted c ≠ [] →
        natSetEq (onChassis (stage_available cfg w).conn.sensors_restarted c)
          (onChassis (stage_available cfg w).conn.sensors_selected c) = true) ∧
    (fine_guard (stage_coarse (stage_available cfg w)) = true →
      ∀ c,
        onChassis (stage_coarse (stage_available cfg w)).conn.sensors_coarse_zeroed c ≠ [] →
        natSetEq
          (onChassis (stage_coarse (stage_available cfg w)).conn.sensors_coarse_zeroed c)
          (onChassis (stage_coarse (stage_available cfg w)).conn.sensors_selected c) =
          true) := by
  have hinv1 := stage_available_inv cfg w (reachable_inv h)
  constructor
  · intro hg c hne
    have hall := ((Bool.and_eq_true _ _).mp hg).2
    exact batch_chassis_eq _ _ hinv1.1 hall c hne
  · intro hg c hne
    have hinv2 := stage_coarse_inv _ hinv1
    have hall := ((Bool.and_eq_true _ _).mp hg).2
    exact batch_chassis_eq _ _ hinv2.2.1 hall c hne

theorem reachable_seqTraceWorld : Reachable cfgW seqTraceWorld :=
  Reachable.step _
    (Reachable.step _
      (Reachable.step _ Reachable.init trivial)
      trivial)
    (show (0, 1) ∈
        (step_event cfgW
          (step_event cfgW initialSequencerWorld (SequencerEvent.sensorsAvailable 0 [1]))
          SequencerEvent.loopIteration).restartIssued from by decide)

/-- Witness for C3: a concrete reachable state (sensor 00:01 discovered,
selected and restarted) in which the coarse-zeroing guard fires, with the
per-chassis set equality it guarantees. -/
theorem stage_transition_gated_witness :
    natSetEq (onChassis (stage_available cfgW seqTraceWorld).conn.sensors_restarted 0)
      (onChassis (stage_available cfgW seqTraceWorld).conn.sensors_selected 0) = true :=
  (stage_transition_gated cfgW seqTraceWorld reachable_seqTraceWorld).1
    (by decide) 0 (by decide)

/-- C4 (code bug): with sensor 00:01 on the excluded list, `init_sensors`
still accepts it — selecting it and issuing a restart instead of turning it
off — because its excluded-list test is the always-truthy tuple
`(chassis_id, sensor_id not in excluded_sensors)`; the correctly
parenthesised test of start_lsl_stream.py rejects the same sensor.  A sensor
failing the expected-sensors test is turned off and not restarted, as the
claim states. -/
theorem excluded_sensor_restarted_code_bug :
    pairMem cfgExcluded.excluded_sensors (0, 1) = true ∧
    excluded_check_new cfgExcluded.excluded_sensors 0 1 = true ∧
    excluded_check_start cfgExcluded.excluded_sensors 0 1 = false ∧
    (handle_available_new cfgExcluded initialSequencerWorld 0 1).restartIssued =
      [(0, 1)] ∧
    (handle_available_new cfgExcluded initialSequencerWorld 0 1).turnedOff = [] ∧
    (handle_available_new cfgExcluded initialSequencerWorld 0 1).conn.sensors_selected =
      [(0, 1)] ∧
    (handle_available_new cfgNotExpected initialSequencerWorld 0 2).turnedOff =
      [(0, 2)] ∧
    (handle_available_new cfgNotExpected initialSequencerWorld 0 2).restartIssued =
      [] := by
  refine ⟨by decide, by decide, by decide, by decide, by decide, by decide,
    by decide, by decide⟩

theorem mem_insertSorted (x y : String) :
    ∀ l : List String, y ∈ insertSorted x l ↔ y ∈ x :: l := by
  intro l
  induction l with
  | nil => simp [insertSorted]
  | cons a l ih =>
    unfold insertSorted
    by_cases hle : x ≤ a
    · rw [if_pos hle]
    · rw [if_neg hle]
      simp only [List.mem_cons, ih, List.mem_cons]
      tauto

theorem mem_sortStrings (l : List String) (x : String) :
    x ∈ sortStrings l ↔ x ∈ l := by
  induction l with
  | nil => exact Iff.rfl
  | cons a l ih =>
    show x ∈ insertSorted a (sortStrings l) ↔ _
    rw [mem_insertSorted]
    simp only [List.mem_cons, ih]

/-- C6: every fatal startup condition — an expected chassis missing from
discovery, fewer valid sensors than expected, or the initialization timeout
elapsing — stops the hardware service and exits the process with code 1;
a run whose initialization loop ends by success (or service stop) completes
the script and exits with code 0. -/
theorem startup_exit_codes :
    (∀ (discovered expected : List String) (ip : String),
      ip ∈ expected → ip ∉ discovered →
      find_chassis discovered (some expected) = FindChassisResult.exited 1 true) ∧
    (∀ (expected excluded : List (ℕ × ℕ)) (dr : Bool) (st : StartConnState)
      (elapsed timeout : ℚ),
      st.sensors_ready = [] →
      (!st.restarted.isEmpty && st.valid.length == st.restarted.length) = false →
      (!st.coarse_zeroed.isEmpty && st.valid.length == st.coarse_zeroed.length) = false →
      (!st.fine_zeroed.isEmpty && st.valid.length == st.fine_zeroed.length) = false →
      st.valid.length < expected.length →
      init_loop_body (some expected) excluded dr st elapsed timeout =
        InitStepOutcome.fatalExit 1 true) ∧
    (∀ (expected : Option (List (ℕ × ℕ))) (excluded : List (ℕ × ℕ)) (dr : Bool)
      (st st2 : StartConnState) (elapsed timeout : ℚ),
      init_chain expected excluded dr st = InitStepOutcome.continueLoop st2 →
      expected ≠ some [] →
      timeout < elapsed →
      init_loop_body expected excluded dr st elapsed timeout =
        InitStepOutcome.fatalExit 1 true) ∧
    (∀ (expected : Option (List (ℕ × ℕ))) (excluded : List (ℕ × ℕ)) (dr : Bool)
      (timeout : ℚ) (evs : List StartCbEvent) (elapsed : ℚ)
      (rest : List (List StartCbEvent × ℚ)) (st : StartConnState),
      init_loop_body expected excluded dr (evs.foldl apply_start_cb st) elapsed
          timeout = InitStepOutcome.initSuccess →
      run_start_init expected excluded dr timeout ((evs, elapsed) :: rest) st = 0) ∧
    (∀ (expected : Option (List (ℕ × ℕ))) (excluded : List (ℕ × ℕ)) (dr : Bool)
      (timeout : ℚ) (evs : List StartCbEvent) (elapsed : ℚ)
      (rest : List (List StartCbEvent × ℚ)) (st : StartConnState),
      init_loop_body expected excluded dr (evs.foldl apply_start_cb st) elapsed
          timeout = InitStepOutcome.fatalExit 1 true →
      run_start_init expected excluded dr timeout ((evs, elapsed) :: rest) st = 1) := by
  refine ⟨?_, ?_, ?_, ?_, ?_⟩
  · intro discovered expected ip hmem hnotin
    unfold find_chassis
    by_cases he : (sortStrings discovered).isEmpty = true
    · rw [if_pos he]
    · rw [if_neg he]
      have hall : expected.all (fun ip => decide (ip ∈ sortStrings discovered)) = false := by
        cases hb : expected.all (fun ip => decide (ip ∈ sortStrings discovered)) with
        | false => rfl
        | true =>
          exact absurd
            ((mem_sortStrings discovered ip).mp
              (of_decide_eq_true (List.all_eq_true.mp hb ip hmem)))
            hnotin
      simp [hall]
  · intro expected excluded dr st elapsed timeout h1 h2 h3 h4 h5
    have hready : (!st.sensors_ready.isEmpty) = false := by
      rw [h1]; rfl
    unfold init_loop_body init_chain
    rw [hready, h2, h3, h4]
    simp [h5]
  · intro expected excluded dr st st2 elapsed timeout hchain hne hto
    unfold init_loop_body
    rw [hchain]
    dsimp only
    rw [if_neg hne, if_pos hto]
  · intro expected excluded dr timeout evs elapsed rest st h
    unfold run_start_init
    dsimp only
    rw [h]
  · intro expected excluded dr timeout evs elapsed rest st h
    unfold run_start_init
    dsimp only
    rw [h]

/-- Witness for C6: a missing expected chassis ip, a state with fewer valid
sensors than expected, a timed-out iteration, a successful run exiting 0 and
a timed-out run exiting 1, all at concrete inputs. -/
theorem startup_exit_codes_witness :
    find_chassis ["192.168.1.43"] (some ["192.168.1.42"]) =
      FindChassisResult.exited 1 true ∧
    init_loop_body (some [(0, 1)]) [] false stEmpty 0 100 =
      InitStepOutcome.fatalExit 1 true ∧
    init_loop_body none [] false stEmpty 101 100 =
      InitStepOutcome.fatalExit 1 true ∧
    run_start_init none [] false 100 [([], 0)] stFine = 0 ∧
    run_start_init none [] false 100 [([], 101)] stEmpty = 1 := by
  refine ⟨startup_exit_codes.1 ["192.168.1.43"] ["192.168.1.42"] "192.168.1.42"
      (by decide) (by decide),
    startup_exit_codes.2.1 [(0, 1)] [] false stEmpty 0 100 rfl (by decide)
      (by decide) (by decide) (by decide),
    startup_exit_codes.2.2.1 none [] false stEmpty stEmpty 101 100 (by decide)
      (by decide) (by norm_num),
    startup_exit_codes.2.2.2.1 none [] false 100 [] 0 [] stFine ?_,
    startup_exit_codes.2.2.2.2 none [] false 100 [] 101 [] stEmpty ?_⟩
  · show init_loop_body none [] false stFine 0 100 = InitStepOutcome.initSuccess
    decide
  · show init_loop_body none [] false stEmpty 101 100 = InitStepOutcome.fatalExit 1 true
    exact startup_exit_codes.2.2.1 none [] false stEmpty stEmpty 101 100
      (by decide) (by decide) (by norm_num)

/-- C10 counterexample: the float `1e15` is not a member of `Unit_T_Factor`,
yet `__init__` does not log-and-fall-back on it: the containment test
`unit_T not in Unit_T_Factor` itself raises `TypeError` (Enum semantics of
Python 3.8-3.11), so `__init__` raises instead of storing
`Unit_T_Factor.T`. -/
theorem init_unit_T_claim_counterexample :
    init_unit_T (UnitTArg.nonEnum "1e15") = Except.error PyError.typeError ∧
    init_unit_T (UnitTArg.nonEnum "1e15") ≠ Except.ok Unit_T_Factor.T :=
  ⟨rfl, fun h => Except.noConfusion h⟩

/-- C10 amended: under the Enum semantics of the Python versions this code
targets (3.8-3.11), a `unit_T` argument that is an `Enum` member outside
`Unit_T_Factor` makes `__init__` log a warning and fall back to
`Unit_T_Factor.T`, whose factor is 1 (Tesla); a valid member is stored
unchanged, with its own factor; a non-`Enum` argument makes the containment
test raise `TypeError`, which propagates out of `__init__`. -/
theorem init_unit_T_amended_spec :
    (∀ s : String, init_unit_T (UnitTArg.otherEnum s) = Except.ok Unit_T_Factor.T) ∧
    Unit_T_Factor.T.value = 1 ∧
    (∀ u : Unit_T_Factor, init_unit_T (UnitTArg.member u) = Except.ok u ∧
      (init_unit_T (UnitTArg.member u)).map Unit_T_Factor.value =
        Except.ok u.value) ∧
    (∀ s : String, init_unit_T (UnitTArg.nonEnum s) = Except.error PyError.typeError ∧
      unit_T_contains (UnitTArg.nonEnum s) = Except.error PyError.typeError) :=
  ⟨fun s => rfl, rfl, fun u => ⟨rfl, rfl⟩, fun s => ⟨rfl, rfl⟩⟩

end FieldlineLSL
